import Mathlib

set_option maxRecDepth 16384

/-!
Shallow embedding of the multi-agent orchestration worker
(`python-worker/tasks/agents.py`, `python-worker/tasks/rag.py`,
`python-worker/schemas/agent_schemas.py`, and the prompt-building part of
`python-worker/services/llm_client.py`).

Conventions of the embedding:
* The LLM provider (`llm_client.generate`) is an oracle
  `Gen : GenCall → Except String GenResponse`; a `.error e` value models the
  provider raising an exception whose `str` is `e`.
* Python dict subscript on a result dict is modelled by `Except`-valued
  accessors: reading the `output` key of an error-shaped result raises
  `KeyError`, whose `str(e)` is the quoted key name.
* Celery envelope dicts are modelled as inductive types with one constructor
  per shape actually returned; the ambient `task_id` metadata field and the
  constant `workflow_type` strings are omitted, as no property depends on them.
* Python truthiness of optional strings (`custom_system_prompt or ...`,
  `if context:`) is modelled explicitly: `none` and `some ""` are falsy.
-/

/-- Token accounting attached to a provider response (`usage` sub-dict). -/
structure Usage where
  input_tokens : Nat
  output_tokens : Nat
  deriving DecidableEq, Repr

/-- Successful provider response: the fields of the dict built by
`llm_client.generate` that the coordinators read (`text`, `usage`). -/
structure GenResponse where
  text : String
  usage : Usage
  deriving DecidableEq, Repr

/-- One call to `llm_client.generate`: the prompt, the system prompt and the
sampling temperature passed (`none` = use the configured default). -/
structure GenCall where
  prompt : String
  system : String
  temperature : Option Rat
  deriving DecidableEq, Repr

/-- The provider oracle. `.error e` models `generate` raising an exception
with message `e`; `.ok r` models a normal return. -/
abbrev Gen := GenCall → Except String GenResponse

/-- The five fixed role prompts of `class AgentRole`. -/
def AgentRole.RESEARCHER : String :=
  "You are a research specialist. Your role is to:\n- Gather and analyze information thoroughly\n- Identify key facts and patterns\n- Provide well-sourced insights\n- Be objective and comprehensive"

def AgentRole.ANALYST : String :=
  "You are a data analyst. Your role is to:\n- Break down complex problems into parts\n- Identify relationships and dependencies\n- Provide structured analysis\n- Draw logical conclusions"

def AgentRole.PLANNER : String :=
  "You are a strategic planner. Your role is to:\n- Create actionable plans\n- Break down goals into steps\n- Identify resources needed\n- Anticipate obstacles and solutions"

def AgentRole.CRITIC : String :=
  "You are a critical reviewer. Your role is to:\n- Identify weaknesses and gaps\n- Challenge assumptions\n- Suggest improvements\n- Ensure quality and accuracy"

def AgentRole.SYNTHESIZER : String :=
  "You are a synthesis expert. Your role is to:\n- Combine multiple perspectives\n- Find common themes\n- Resolve conflicts\n- Create cohesive final outputs"

/-- The generic fallback system prompt used for unknown roles. -/
def genericAssistantPrompt : String := "You are a helpful AI assistant."

/-- Python `str.lower()`, modelled character-wise (kernel-computable; the
role names involved are ASCII). -/
def strToLower (s : String) : String := ⟨s.data.map Char.toLower⟩

/-- Python `str.upper()`, modelled character-wise. -/
def strToUpper (s : String) : String := ⟨s.data.map Char.toUpper⟩

/-- Role table lookup `role_prompts.get(role.lower(), "You are a helpful AI assistant.")`:
lowercased exact lookup in the five-entry table with generic fallback. -/
def rolePrompt (role : String) : String :=
  if strToLower role = "researcher" then AgentRole.RESEARCHER
  else if strToLower role = "analyst" then AgentRole.ANALYST
  else if strToLower role = "planner" then AgentRole.PLANNER
  else if strToLower role = "critic" then AgentRole.CRITIC
  else if strToLower role = "synthesizer" then AgentRole.SYNTHESIZER
  else genericAssistantPrompt

/-- System prompt choice `system_prompt = custom_system_prompt or role_prompts.get(...)`.
Python `or` falls through on `None` and on the empty string. -/
def systemPromptOf (role : String) (custom_system_prompt : Option String) : String :=
  match custom_system_prompt with
  | some s => if s = "" then rolePrompt role else s
  | none => rolePrompt role

/-- Prompt construction: `prompt = task_description;
if context: prompt = f"Context:\n{ctx}\n\nTask:\n{task}"`.
An empty-string context is falsy and leaves the bare task. -/
def promptOf (task_description : String) (context : Option String) : String :=
  match context with
  | some c =>
      if c = "" then task_description
      else "Context:\n" ++ c ++ "\n\nTask:\n" ++ task_description
  | none => task_description

/-- The exact `GenCall` that `run_single_agent` issues (temperature 0.7). -/
def genCallOf (role task_description : String)
    (context custom_system_prompt : Option String) : GenCall :=
  ⟨promptOf task_description context,
   systemPromptOf role custom_system_prompt,
   some (7 / 10)⟩

/-- The dict returned by `run_single_agent`: either the success shape
(keys `status="success"`, `role`, `output`, `usage`) or the error shape
(keys `status="error"`, `role`, `error`). The error shape has no `output`
key. -/
inductive InvocationResult where
  | success (role : String) (output : String) (usage : Usage)
  | error (role : String) (errMsg : String)
  deriving DecidableEq, Repr

/-- The `status` key, present in both shapes. -/
def InvocationResult.statusOf : InvocationResult → String
  | .success .. => "success"
  | .error .. => "error"

/-- Message `str(KeyError("output"))`: the message of the exception raised by
subscripting a dict that lacks the `output` key. -/
def keyErrorOutput : String := "\x27output\x27"

/-- Dict subscript `result["output"]`: raises `KeyError` on the error shape. -/
def InvocationResult.outputGet : InvocationResult → Except String String
  | .success _ o _ => .ok o
  | .error .. => .error keyErrorOutput

/-- Dict method `result.get("output")`: `None` on the error shape. -/
def InvocationResult.outputOpt : InvocationResult → Option String
  | .success _ o _ => some o
  | .error .. => none

/-- Model of `tasks/agents.py run_single_agent`: resolve the system prompt, build the
prompt, call the provider; any provider exception is caught and converted to
the error shape. The Lean function is total, mirroring that the Python
function never lets an exception escape its `try/except`. -/
def run_single_agent (gen : Gen) (role task_description : String)
    (context custom_system_prompt : Option String) : InvocationResult :=
  match gen (genCallOf role task_description context custom_system_prompt) with
  | .ok r => .success role r.text r.usage
  | .error e => .error role e

/-! ## Sequential coordinator (`run_multi_agent_sequential`) -/

/-- One element of the `agents` argument: a dict with key `role` and optional
key `task_description`. -/
structure SeqAgentConfig where
  role : String
  task_description : Option String
  deriving DecidableEq, Repr

/-- One completed step entry: `{"step": i+1, "role": role, "output": ...}`. -/
structure StepEntry where
  step : Nat
  role : String
  output : String
  deriving DecidableEq, Repr

/-- The envelope returned by `run_multi_agent_sequential`: the success shape
(`steps`, `final_output`, `total_agents`) or the step-failure shape
(`failed_at_step`, `error`, `completed_steps`). The catch-all error shape is
unreachable for well-formed configs (the loop body itself never raises). -/
inductive SeqEnvelope where
  | ok (steps : List StepEntry) (final_output : Option String) (total_agents : Nat)
  | failed (failed_at_step : Nat) (errMsg : String) (completed_steps : List StepEntry)
  deriving DecidableEq, Repr

/-- One loop iteration's agent invocation: default task
`"Continue the work"`, context passed only when `pass_context`. -/
def seqStep (gen : Gen) (pass_context : Bool) (ctx : String)
    (c : SeqAgentConfig) : InvocationResult :=
  run_single_agent gen c.role (c.task_description.getD "Continue the work")
    (if pass_context then some ctx else none) none

/-- The `for i, agent_config in enumerate(agents)` loop: `i` is the 1-based
step counter, `ctx` the running `current_context`, `acc` the `results` list
accumulated so far, `total` the length of the original agent list. -/
def seqLoop (gen : Gen) (pass_context : Bool) (total : Nat) :
    List SeqAgentConfig → String → Nat → List StepEntry → SeqEnvelope
  | [], _, _, acc => .ok acc ((acc.getLast?).map StepEntry.output) total
  | c :: rest, ctx, i, acc =>
      match seqStep gen pass_context ctx c with
      | .error _ e => .failed i e acc
      | .success _ out _ =>
          seqLoop gen pass_context total rest (if pass_context then out else ctx)
            (i + 1) (acc ++ [⟨i, c.role, out⟩])

/-- Model of `tasks/agents.py run_multi_agent_sequential`. -/
def run_multi_agent_sequential (gen : Gen) (agents : List SeqAgentConfig)
    (initial_task : String) (pass_context : Bool) : SeqEnvelope :=
  seqLoop gen pass_context agents.length agents initial_task 1 []

/-- Specification-side trace of a run of consecutive *successful* steps
starting at counter `i` with context `ctx`: returns the final context and the
step entries produced, or `none` as soon as a step's invocation errors. -/
def seqStepsOk (gen : Gen) (pass_context : Bool) :
    List SeqAgentConfig → String → Nat → Option (String × List StepEntry)
  | [], ctx, _ => some (ctx, [])
  | c :: rest, ctx, i =>
      match seqStep gen pass_context ctx c with
      | .error .. => none
      | .success _ out _ =>
          (seqStepsOk gen pass_context rest (if pass_context then out else ctx)
            (i + 1)).map (fun p => (p.1, ⟨i, c.role, out⟩ :: p.2))

/-! ## Parallel coordinator (`run_multi_agent_parallel`) -/

/-- One element of the `agents` argument: dict with key `role` and optional
key `custom_instructions`. -/
structure ParAgentConfig where
  role : String
  custom_instructions : Option String
  deriving DecidableEq, Repr

/-- One entry appended to `results`:
`{"role": role, "output": agent_result["output"], "status": ...}`. -/
structure ParallelEntry where
  role : String
  output : String
  status : String
  deriving DecidableEq, Repr

/-- Envelope of `run_multi_agent_parallel`: the success shape
(`agent_outputs`, `final_synthesis`, `total_agents`, `successful_agents`) or
the catch-all error shape (`status="error"`, `error`), which carries no
per-agent data. -/
inductive ParallelEnvelope where
  | ok (agent_outputs : List ParallelEntry) (final_synthesis : Option String)
      (total_agents successful_agents : Nat)
  | err (errMsg : String)
  deriving DecidableEq, Repr

/-- The `final_synthesis` value of an envelope (`None` on the error shape,
which has no such key). -/
def ParallelEnvelope.finalSynthesisOf : ParallelEnvelope → Option String
  | .ok _ fs _ _ => fs
  | .err _ => none

/-- The `successful_agents` count of an envelope (0 on the error shape). -/
def ParallelEnvelope.successfulAgentsOf : ParallelEnvelope → Nat
  | .ok _ _ _ k => k
  | .err _ => 0

/-- The per-agent fan-out loop. Each entry reads `agent_result["output"]` by
dict subscript: on an error-shaped result this raises `KeyError("output")`,
modelled by the `Except` short-circuit. -/
def parLoop (gen : Gen) (task : String) :
    List ParAgentConfig → Except String (List ParallelEntry)
  | [] => .ok []
  | c :: rest =>
      match (run_single_agent gen c.role (c.custom_instructions.getD task)
          none none).outputGet with
      | .error e => .error e
      | .ok out =>
          match parLoop gen task rest with
          | .error e => .error e
          | .ok entries =>
              .ok (⟨c.role, out,
                (run_single_agent gen c.role (c.custom_instructions.getD task)
                  none none).statusOf⟩ :: entries)

/-- The fixed task description of the synthesizer invocation. -/
def synthTaskDescription : String :=
  "Synthesize all the perspectives below into a comprehensive, cohesive response."

/-- Synthesis context `synthesis_context`: upper-cased role plus output of each *successful*
entry, blank-line separated, in input order. -/
def synthesisContext (results : List ParallelEntry) : String :=
  String.intercalate "\n\n"
    ((results.filter (fun r => r.status == "success")).map
      (fun r => strToUpper r.role ++ " PERSPECTIVE:\n" ++ r.output))

/-- Model of `tasks/agents.py run_multi_agent_parallel`: fan out, then optionally
synthesize (`final_output = synthesis.get("output")`); a `KeyError` raised in
the loop is caught by the surrounding `except` and becomes the error shape. -/
def run_multi_agent_parallel (gen : Gen) (agents : List ParAgentConfig)
    (task : String) (synthesize : Bool) : ParallelEnvelope :=
  match parLoop gen task agents with
  | .error e => .err e
  | .ok results =>
      let final_output : Option String :=
        if synthesize && !results.isEmpty then
          (run_single_agent gen "synthesizer" synthTaskDescription
            (some (synthesisContext results)) none).outputOpt
        else none
      .ok results final_output agents.length
        ((results.filter (fun r => r.status == "success")).length)

/-! ## Debate coordinator (`run_agent_debate`) -/

/-- One transcript entry:
`{"round": round_num, "role": role, "argument": ...}`. -/
structure DebateEntry where
  round : Nat
  role : String
  argument : String
  deriving DecidableEq, Repr

/-- Line format `f"Round ..., ...: ..."` of one transcript entry. -/
def debateLine (h : DebateEntry) : String :=
  "Round " ++ toString h.round ++ ", " ++ h.role ++ ": " ++ h.argument

/-- The context built from all previous transcript entries. -/
def debateContext (hist : List DebateEntry) : String :=
  String.intercalate "\n\n" (hist.map debateLine)

/-- The per-turn task text: topic line plus, when the running context is
non-empty, the previous arguments. -/
def debateTask (topic : String) (round_num : Nat) (hist : List DebateEntry) : String :=
  let t := "Topic: " ++ topic ++ "\n\nProvide your argument for round "
    ++ toString round_num ++ "."
  let c := debateContext hist
  if c = "" then t else t ++ "\n\nPrevious arguments:\n" ++ c

/-- The inner `for i, role in enumerate(agents)` loop of one round. Each turn
reads `response["output"]` by dict subscript, so an error-shaped result raises
`KeyError("output")`. -/
def debateRosterLoop (gen : Gen) (topic : String) (round_num : Nat) :
    List String → List DebateEntry → Except String (List DebateEntry)
  | [], hist => .ok hist
  | role :: rest, hist =>
      match (run_single_agent gen role (debateTask topic round_num hist)
          none none).outputGet with
      | .error e => .error e
      | .ok arg =>
          debateRosterLoop gen topic round_num rest
            (hist ++ [⟨round_num, role, arg⟩])

/-- The outer `for round_num in range(1, rounds + 1)` loop: `remaining` rounds
left to play, the next one numbered `round_num`. -/
def debateRoundsLoop (gen : Gen) (topic : String) (roster : List String) :
    Nat → Nat → List DebateEntry → Except String (List DebateEntry)
  | 0, _, hist => .ok hist
  | remaining + 1, round_num, hist =>
      match debateRosterLoop gen topic round_num roster hist with
      | .error e => .error e
      | .ok hist2 => debateRoundsLoop gen topic roster remaining (round_num + 1) hist2

/-- Task description of the concluding synthesizer invocation. -/
def conclusionTask (topic : String) : String :=
  "Synthesize the debate on \x27" ++ topic ++ "\x27 and provide a balanced conclusion."

/-- The body of the `try` block: play all rounds, then read
`conclusion["output"]` (again a raising dict subscript). -/
def debateBody (gen : Gen) (topic : String) (rounds : Nat)
    (roster : List String) : Except String (List DebateEntry × String) :=
  match debateRoundsLoop gen topic roster rounds 1 [] with
  | .error e => .error e
  | .ok hist =>
      match (run_single_agent gen "synthesizer" (conclusionTask topic)
          (some (debateContext hist)) none).outputGet with
      | .error e => .error e
      | .ok concl => .ok (hist, concl)

/-- Envelope of `run_agent_debate`: success shape (`topic`, `rounds`,
`debate_transcript`, `conclusion`) or catch-all error shape. -/
inductive DebateEnvelope where
  | ok (topic : String) (rounds : Nat) (debate_transcript : List DebateEntry)
      (conclusion : String)
  | err (errMsg : String)
  deriving DecidableEq, Repr

/-- Model of `tasks/agents.py run_agent_debate`: `agents=None` defaults the roster to
`["researcher", "critic"]`; an exception raised in the body is caught and
becomes the error shape. -/
def run_agent_debate (gen : Gen) (topic : String) (rounds : Nat)
    (agents : Option (List String)) : DebateEnvelope :=
  let roster := agents.getD ["researcher", "critic"]
  match debateBody gen topic rounds roster with
  | .ok (hist, concl) => .ok topic rounds hist concl
  | .error e => .err e

/-! ## RAG coordinator (`tasks/rag.py query_with_context`) -/

/-- The `results` sub-dict returned by `vector_store.search`. Metadata and
distance values are pass-through payloads the coordinator never inspects, so
they are type parameters. -/
structure SearchResults (μ δ : Type) where
  documents : List String
  metadatas : List μ
  distances : List δ
  ids : List String

/-- External collaborators of the RAG task: the vector index
(`search collection query n_results`, raising modelled as `.error`) and the
provider oracle used by `llm_client.generate`. -/
structure RagOracle (μ δ : Type) where
  search : String → String → Nat → Except String (SearchResults μ δ)
  gen : Gen

/-- Default grounding system prompt of `llm_client.generate_with_context`. -/
def ragDefaultSystem : String :=
  "You are a helpful AI assistant. Answer questions based on the provided context. If the context doesn\x27t contain enough information, say so."

/-- Numbered document blocks, blank-line separated. -/
def contextText (docs : List String) : String :=
  String.intercalate "\n\n"
    (docs.enum.map (fun p => "Document " ++ toString (p.1 + 1) ++ ":\n" ++ p.2))

/-- The context-enhanced prompt built by `generate_with_context`. -/
def enhancedPrompt (prompt : String) (docs : List String) : String :=
  "Here is relevant context from the knowledge base:\n\n" ++ contextText docs
    ++ "\n\nBased on the above context, please answer the following question:\n\n"
    ++ prompt

/-- Model of `llm_client.generate_with_context`: build the enhanced prompt, resolve
`system or <default>` (Python truthiness) and delegate to `generate` with no
explicit temperature. -/
def generate_with_context (g : Gen) (prompt : String)
    (context_documents : List String) (system : Option String) :
    Except String GenResponse :=
  g ⟨enhancedPrompt prompt context_documents,
     (match system with
      | some s => if s = "" then ragDefaultSystem else s
      | none => ragDefaultSystem),
     none⟩

/-- Envelope of `query_with_context`: the success shape carries `query`,
`answer`, the `sources` sub-dict (documents, metadatas, distances) and
`usage`; the catch-all error shape carries only the message — no sources. -/
inductive RagEnvelope (μ δ : Type) where
  | ok (query answer : String) (documents : List String) (metadatas : List μ)
      (distances : List δ) (usage : Usage)
  | err (errMsg : String)

/-- Model of `tasks/rag.py query_with_context`: search, then generate with the
retrieved documents; an exception raised at either step is caught by the
single surrounding `except` and becomes the error shape. -/
def query_with_context {μ δ : Type} (o : RagOracle μ δ)
    (collection_name query : String) (n_context_docs : Nat)
    (system_prompt : Option String) : RagEnvelope μ δ :=
  match o.search collection_name query n_context_docs with
  | .error e => .err e
  | .ok sr =>
      match generate_with_context o.gen query sr.documents system_prompt with
      | .error e => .err e
      | .ok resp =>
          .ok query resp.text sr.documents sr.metadatas sr.distances resp.usage

/-! ## Result schema (`schemas/agent_schemas.py LongRunningTaskResult`) -/

/-- The closed status enumeration `TaskStatus`. -/
inductive TaskStatus where
  | pending
  | in_progress
  | completed
  | failed
  deriving DecidableEq, Repr

/-- A generated `LongRunningTaskResult` payload. `result` and
`checkpoint_data` are opaque payloads; the datetime fields are opaque
timestamps. Floats are modelled as rationals. -/
structure LongRunningTaskResult where
  task_id : String
  status : TaskStatus
  progress_percentage : Rat
  current_step : String
  steps_completed : Int
  total_steps : Int
  result : Option String
  error_message : Option String
  checkpoint_data : String
  started_at : Int
  updated_at : Int

/-- The pydantic validation of `LongRunningTaskResult`: exactly the declared
`Field` constraints — `progress_percentage` in `[0, 100]`,
`steps_completed ≥ 0`, `total_steps ≥ 1`. The model declares no relation
between `steps_completed` and `total_steps`. -/
def validateLongRunningTaskResult (p : LongRunningTaskResult) : Bool :=
  decide (0 ≤ p.progress_percentage) && decide (p.progress_percentage ≤ 100)
    && decide (0 ≤ p.steps_completed) && decide (1 ≤ p.total_steps)

/-! ## Specification-side schedules and concrete test providers -/

/-- The lexicographic (round, roster-index) schedule of round numbers for a
roster of size `A`: rounds `r0, r0 + 1, ...` in ascending order, each repeated
once per roster position. -/
def roundsSchedule (A : Nat) : Nat → Nat → List Nat
  | 0, _ => []
  | n + 1, r0 => List.replicate A r0 ++ roundsSchedule A n (r0 + 1)

/-- Provider that fails exactly on calls carrying the critic system prompt. -/
def genCriticFails : Gen := fun c =>
  if c.system = AgentRole.CRITIC then .error "boom"
  else .ok ⟨"facts", ⟨1, 1⟩⟩

/-- Provider that fails exactly on calls carrying the synthesizer system
prompt. -/
def genSynthFails : Gen := fun c =>
  if c.system = AgentRole.SYNTHESIZER then .error "synth down"
  else .ok ⟨"out", ⟨1, 1⟩⟩

/-- Provider that fails exactly on calls carrying the researcher system
prompt. -/
def genResearcherFails : Gen := fun c =>
  if c.system = AgentRole.RESEARCHER then .error "bad turn"
  else .ok ⟨"arg", ⟨1, 1⟩⟩

/-- Provider that always succeeds with the same text. -/
def genAllOk : Gen := fun _ => .ok ⟨"out", ⟨1, 1⟩⟩

/-- Provider that always raises. -/
def genBoom : Gen := fun _ => .error "boom"

/-- Provider that succeeds with an empty completion text. -/
def genEmptyText : Gen := fun _ => .ok ⟨"", ⟨1, 1⟩⟩

/-- RAG collaborators whose retrieval succeeds and whose generation raises. -/
def ragOracleGenFails : RagOracle String Int :=
  ⟨fun _ _ _ => .ok ⟨["doc1"], ["m1"], [5], ["id1"]⟩, fun _ => .error "gen down"⟩

/-- A generated snapshot reporting more completed steps than total steps. -/
def overCountedSnapshot : LongRunningTaskResult :=
  ⟨"task-1", .in_progress, 50, "step 5", 5, 2, none, none, "cp", 0, 0⟩

/-- A well-formed completed snapshot. -/
def goodSnapshot : LongRunningTaskResult :=
  ⟨"task-2", .completed, 100, "done", 3, 3, some "payload", none, "cp", 0, 1⟩

/-- A snapshot whose progress percentage exceeds 100. -/
def badSnapshot : LongRunningTaskResult :=
  ⟨"task-3", .in_progress, 150, "step", 0, 1, none, none, "cp", 0, 0⟩

/-! ## Helper lemmas -/

/-- A result whose `output` key reads successfully is success-shaped. -/
theorem InvocationResult.outputGet_ok {r : InvocationResult} {out : String}
    (h : r.outputGet = .ok out) :
    r.statusOf = "success" ∧ r.outputOpt = some out := by
  cases r with
  | success ro o u =>
      simp [InvocationResult.outputGet] at h
      simp [InvocationResult.statusOf, InvocationResult.outputOpt, h]
  | error ro e => simp [InvocationResult.outputGet] at h

/-- A trace of successful steps is a prefix of the sequential loop: the loop
over `pre ++ rest` first replays `pre`, accumulating its entries and advancing
the context and the step counter. -/
theorem seqLoop_append (gen : Gen) (pc : Bool) (total : Nat) :
    ∀ (pre rest : List SeqAgentConfig) (ctx : String) (i : Nat)
      (acc : List StepEntry) (ctx2 : String) (entries : List StepEntry),
      seqStepsOk gen pc pre ctx i = some (ctx2, entries) →
      seqLoop gen pc total (pre ++ rest) ctx i acc
        = seqLoop gen pc total rest ctx2 (i + pre.length) (acc ++ entries) := by
  intro pre
  induction pre with
  | nil =>
      intro rest ctx i acc ctx2 entries h
      simp [seqStepsOk] at h
      obtain ⟨h1, h2⟩ := h
      subst h1; subst h2
      simp
  | cons c pre ih =>
      intro rest ctx i acc ctx2 entries h
      rw [seqStepsOk] at h
      cases hstep : seqStep gen pc ctx c with
      | error r e => rw [hstep] at h; simp at h
      | success r out u =>
          rw [hstep] at h
          obtain ⟨p, hrec, hf⟩ := Option.map_eq_some'.mp h
          obtain ⟨ctx3, es⟩ := p
          simp at hf
          obtain ⟨hc3, hes⟩ := hf
          subst hc3; subst hes
          rw [List.cons_append, seqLoop, hstep]
          dsimp only
          rw [ih rest _ (i + 1) _ _ _ hrec]
          have harith : i + 1 + pre.length = i + (pre.length + 1) := by omega
          rw [harith]
          simp [List.append_assoc]

/-- A successful step trace contains one entry per configured agent. -/
theorem seqStepsOk_length (gen : Gen) (pc : Bool) :
    ∀ (l : List SeqAgentConfig) (ctx : String) (i : Nat) (ctx2 : String)
      (es : List StepEntry),
      seqStepsOk gen pc l ctx i = some (ctx2, es) → es.length = l.length := by
  intro l
  induction l with
  | nil =>
      intro ctx i ctx2 es h
      simp [seqStepsOk] at h
      simp [h.2.symm]
  | cons c rest ih =>
      intro ctx i ctx2 es h
      rw [seqStepsOk] at h
      cases hstep : seqStep gen pc ctx c with
      | error r e => rw [hstep] at h; simp at h
      | success r out u =>
          rw [hstep] at h
          obtain ⟨p, hrec, hf⟩ := Option.map_eq_some'.mp h
          obtain ⟨ctx3, es'⟩ := p
          simp at hf
          obtain ⟨hc3, hes⟩ := hf
          subst hc3; subst hes
          simp [ih _ _ _ _ hrec]

/-- C2: in `run_multi_agent_sequential`, if the invocations of the first
`i - 1 = pre.length` agents succeed (producing trace `entries`) and the `i`-th
agent's invocation returns an error, the coordinator stops immediately and
returns the step-failure envelope with `failed_at_step = i`, the failing
invocation's error message, and exactly the `i - 1` previously completed step
entries in their original order. -/
theorem run_multi_agent_sequential_stops_at_first_error
    (gen : Gen) (pre post : List SeqAgentConfig) (c : SeqAgentConfig)
    (initial_task : String) (pass_context : Bool)
    (ctx : String) (entries : List StepEntry) (r e : String)
    (hpre : seqStepsOk gen pass_context pre initial_task 1 = some (ctx, entries))
    (herr : seqStep gen pass_context ctx c = .error r e) :
    run_multi_agent_sequential gen (pre ++ c :: post) initial_task pass_context
      = .failed (pre.length + 1) e entries
    ∧ entries.length = pre.length := by
  constructor
  · rw [run_multi_agent_sequential,
      seqLoop_append gen pass_context _ pre (c :: post) initial_task 1 [] ctx entries hpre,
      seqLoop, herr]
    simp [Nat.add_comm]
  · exact seqStepsOk_length gen pass_context pre initial_task 1 ctx entries hpre

/-- Witness for C2: the spec §8 scenario — researcher then critic with
context passing, the critic's provider call failing. -/
theorem run_multi_agent_sequential_stops_at_first_error_witness :
    run_multi_agent_sequential genCriticFails
      [⟨"researcher", some "find facts"⟩, ⟨"critic", some "review"⟩] "X" true
      = .failed 2 "boom" [⟨1, "researcher", "facts"⟩]
    ∧ ([⟨1, "researcher", "facts"⟩] : List StepEntry).length = 1 :=
  run_multi_agent_sequential_stops_at_first_error genCriticFails
    [⟨"researcher", some "find facts"⟩] [] ⟨"critic", some "review"⟩ "X" true
    "facts" [⟨1, "researcher", "facts"⟩] "critic" "boom" (by decide) (by decide)

/-- Every entry produced by a completing fan-out loop has status `success`:
error-shaped invocation results cannot contribute an entry, because reading
their `output` key raises instead. -/
theorem parLoop_ok_status (gen : Gen) (task : String) :
    ∀ (agents : List ParAgentConfig) (results : List ParallelEntry),
      parLoop gen task agents = .ok results →
      ∀ r ∈ results, r.status = "success" := by
  intro agents
  induction agents with
  | nil =>
      intro results h r hr
      rw [parLoop] at h
      cases h
      simp at hr
  | cons c rest ih =>
      intro results h r hr
      rw [parLoop] at h
      cases hget : (run_single_agent gen c.role (c.custom_instructions.getD task)
          none none).outputGet with
      | error e => rw [hget] at h; cases h
      | ok out =>
          rw [hget] at h
          cases hrec : parLoop gen task rest with
          | error e => rw [hrec] at h; cases h
          | ok entries =>
              rw [hrec] at h
              cases h
              rcases List.mem_cons.mp hr with h1 | h1
              · subst h1
                exact (InvocationResult.outputGet_ok hget).1
              · exact ih entries hrec r h1

/-- A completing fan-out loop yields one entry per input agent. -/
theorem parLoop_ok_length (gen : Gen) (task : String) :
    ∀ (agents : List ParAgentConfig) (results : List ParallelEntry),
      parLoop gen task agents = .ok results →
      results.length = agents.length := by
  intro agents
  induction agents with
  | nil =>
      intro results h
      rw [parLoop] at h
      cases h
      rfl
  | cons c rest ih =>
      intro results h
      rw [parLoop] at h
      cases hget : (run_single_agent gen c.role (c.custom_instructions.getD task)
          none none).outputGet with
      | error e => rw [hget] at h; cases h
      | ok out =>
          rw [hget] at h
          cases hrec : parLoop gen task rest with
          | error e => rw [hrec] at h; cases h
          | ok entries =>
              rw [hrec] at h
              cases h
              simp [ih entries hrec]

/-- C1: evaluation of `run_multi_agent_parallel` at a two-agent input where
the researcher invocation succeeds and the critic invocation fails. Instead
of the documented partial-failure envelope (overall success, per-agent error
entry, `successful_agents = 1`), building the failed agent's entry reads the
missing `output` key of the error-shaped result, and the resulting
`KeyError` is caught by the catch-all handler: the whole call returns the
bare error envelope, with no `agent_outputs` at all. -/
theorem run_multi_agent_parallel_partial_failure_bug :
    run_single_agent genCriticFails "researcher" "T" none none
      = .success "researcher" "facts" ⟨1, 1⟩
    ∧ run_single_agent genCriticFails "critic" "T" none none
      = .error "critic" "boom"
    ∧ run_multi_agent_parallel genCriticFails
        [⟨"researcher", none⟩, ⟨"critic", none⟩] "T" true
      = .err keyErrorOutput := by
  refine ⟨by decide, by decide, by decide⟩

/-- C6 counterexample: one agent, whose invocation succeeds
(`successful_agents = 1`), `synthesize = true`, but the synthesizer's own
provider call fails; `synthesis.get("output")` is then `None`, so
`final_synthesis` is absent even though at least one agent succeeded —
refuting the claimed equivalence. -/
theorem run_multi_agent_parallel_synthesis_counterexample :
    (run_multi_agent_parallel genSynthFails [⟨"researcher", none⟩] "T" true).successfulAgentsOf
      = 1
    ∧ (run_multi_agent_parallel genSynthFails [⟨"researcher", none⟩] "T" true).finalSynthesisOf
      = none := by
  refine ⟨by decide, by decide⟩

/-- C6 amended: for runs of `run_multi_agent_parallel` with
`synthesize = true` in which the fan-out loop completes (which, given the
missing-`output` defect, is exactly when every agent invocation succeeds)
and at least one agent ran, the envelope carries the per-agent entries, and
`final_synthesis` is `synthesis.get("output")` of the synthesizer invocation
over all entries (upper-cased role plus output, blank-line separated, input
order): present exactly when that invocation succeeds, absent when it fails.
`successful_agents` equals the number of agents. -/
theorem run_multi_agent_parallel_synthesis_characterization
    (gen : Gen) (agents : List ParAgentConfig) (task : String)
    (results : List ParallelEntry)
    (hok : parLoop gen task agents = .ok results) (hne : results ≠ []) :
    run_multi_agent_parallel gen agents task true
      = .ok results
          ((run_single_agent gen "synthesizer" synthTaskDescription
            (some (synthesisContext results)) none).outputOpt)
          agents.length results.length := by
  have hall := parLoop_ok_status gen task agents results hok
  have hfilter : results.filter (fun r => r.status == "success") = results := by
    rw [List.filter_eq_self]
    intro a ha
    simp [hall a ha]
  have hni : results.isEmpty = false := by
    cases results with
    | nil => exact absurd rfl hne
    | cons x xs => rfl
  rw [run_multi_agent_parallel, hok]
  simp only [hni, Bool.not_false, Bool.and_true, if_true]
  rw [hfilter]

/-- Witness for C6 amended: a single successful researcher plus a successful
synthesizer; `final_synthesis` is present and equal to the synthesizer's
output. -/
theorem run_multi_agent_parallel_synthesis_characterization_witness :
    run_multi_agent_parallel genAllOk [⟨"researcher", none⟩] "T" true
      = .ok [⟨"researcher", "out", "success"⟩]
          ((run_single_agent genAllOk "synthesizer" synthTaskDescription
            (some (synthesisContext [⟨"researcher", "out", "success"⟩])) none).outputOpt)
          1 1 :=
  run_multi_agent_parallel_synthesis_characterization genAllOk
    [⟨"researcher", none⟩] "T" [⟨"researcher", "out", "success"⟩]
    rfl (by decide)

/-- A completing roster pass appends exactly one entry per roster role, in
roster order, all tagged with the current round number. -/
theorem debateRosterLoop_ok_shape (gen : Gen) (topic : String) (r : Nat) :
    ∀ (roster : List String) (hist hist2 : List DebateEntry),
      debateRosterLoop gen topic r roster hist = .ok hist2 →
      ∃ tail, hist2 = hist ++ tail
        ∧ tail.map DebateEntry.round = List.replicate roster.length r
        ∧ tail.map DebateEntry.role = roster
        ∧ tail.length = roster.length := by
  intro roster
  induction roster with
  | nil =>
      intro hist hist2 h
      rw [debateRosterLoop] at h
      cases h
      exact ⟨[], by simp⟩
  | cons role rest ih =>
      intro hist hist2 h
      rw [debateRosterLoop] at h
      cases hget : (run_single_agent gen role (debateTask topic r hist)
          none none).outputGet with
      | error e => rw [hget] at h; cases h
      | ok arg =>
          rw [hget] at h
          obtain ⟨tail, htl, hround, hrole, hlen⟩ :=
            ih (hist ++ [⟨r, role, arg⟩]) hist2 h
          refine ⟨⟨r, role, arg⟩ :: tail, ?_, ?_, ?_, ?_⟩
          · rw [htl]; simp
          · simp [hround, List.replicate_succ]
          · simp [hrole]
          · simp [hlen]

/-- A completing run of the round loop appends `n * |roster|` entries: round
numbers ascending from `r0`, each repeated once per roster position, the
roles cycling through the roster in order — the lexicographic
(round, roster-index) order. -/
theorem debateRoundsLoop_ok_shape (gen : Gen) (topic : String)
    (roster : List String) :
    ∀ (n r0 : Nat) (hist hist2 : List DebateEntry),
      debateRoundsLoop gen topic roster n r0 hist = .ok hist2 →
      ∃ tail, hist2 = hist ++ tail
        ∧ tail.map DebateEntry.round = roundsSchedule roster.length n r0
        ∧ tail.map DebateEntry.role = (List.replicate n roster).flatten
        ∧ tail.length = n * roster.length := by
  intro n
  induction n with
  | zero =>
      intro r0 hist hist2 h
      rw [debateRoundsLoop] at h
      cases h
      exact ⟨[], by simp [roundsSchedule]⟩
  | succ n ih =>
      intro r0 hist hist2 h
      rw [debateRoundsLoop] at h
      cases hpass : debateRosterLoop gen topic r0 roster hist with
      | error e => rw [hpass] at h; cases h
      | ok hist1 =>
          rw [hpass] at h
          obtain ⟨tail1, htl1, hround1, hrole1, hlen1⟩ :=
            debateRosterLoop_ok_shape gen topic r0 roster hist hist1 hpass
          obtain ⟨tail2, htl2, hround2, hrole2, hlen2⟩ := ih (r0 + 1) hist1 hist2 h
          refine ⟨tail1 ++ tail2, ?_, ?_, ?_, ?_⟩
          · rw [htl2, htl1, List.append_assoc]
          · simp [roundsSchedule, hround1, hround2]
          · simp [List.replicate_succ, hrole1, hrole2]
          · simp [hlen1, hlen2, Nat.succ_mul, Nat.add_comm]

/-- C9: if `run_agent_debate` returns its success envelope (which requires
every underlying invocation, the conclusion synthesizer included, to have
succeeded) with `rounds ≥ 1`, the transcript has exactly
`rounds × |roster|` entries, ordered lexicographically ascending by
(round number, roster position): rounds `1, 2, ...` each repeated once per
roster position, roles cycling through the roster in input order. -/
theorem run_agent_debate_transcript_shape
    (gen : Gen) (topic : String) (rounds : Nat) (roster : List String)
    (t : List DebateEntry) (c : String)
    (hr : 1 ≤ rounds)
    (hrun : run_agent_debate gen topic rounds (some roster) = .ok topic rounds t c) :
    t.length = rounds * roster.length
    ∧ t.map DebateEntry.round = roundsSchedule roster.length rounds 1
    ∧ t.map DebateEntry.role = (List.replicate rounds roster).flatten := by
  rw [run_agent_debate] at hrun
  simp only [Option.getD] at hrun
  cases hbody : debateBody gen topic rounds roster with
  | error e => rw [hbody] at hrun; cases hrun
  | ok p =>
      obtain ⟨hist, concl⟩ := p
      rw [hbody] at hrun
      cases hrun
      rw [debateBody] at hbody
      cases hloop : debateRoundsLoop gen topic roster rounds 1 [] with
      | error e => rw [hloop] at hbody; cases hbody
      | ok hist0 =>
          rw [hloop] at hbody
          dsimp only at hbody
          cases hget : (run_single_agent gen "synthesizer" (conclusionTask topic)
              (some (debateContext hist0)) none).outputGet with
          | error e => rw [hget] at hbody; cases hbody
          | ok concl0 =>
              rw [hget] at hbody
              cases hbody
              obtain ⟨tail, htl, hround, hrole, hlen⟩ :=
                debateRoundsLoop_ok_shape gen topic roster rounds 1 [] _ hloop
              simp only [List.nil_append] at htl
              subst htl
              exact ⟨hlen, hround, hrole⟩

/-- Witness for C9: one round over the default two-role roster with an
always-succeeding provider. -/
theorem run_agent_debate_transcript_shape_witness :
    ([⟨1, "researcher", "out"⟩, ⟨1, "critic", "out"⟩] : List DebateEntry).length
      = 1 * (["researcher", "critic"] : List String).length
    ∧ ([⟨1, "researcher", "out"⟩, ⟨1, "critic", "out"⟩] : List DebateEntry).map
        DebateEntry.round
      = roundsSchedule (["researcher", "critic"] : List String).length 1 1
    ∧ ([⟨1, "researcher", "out"⟩, ⟨1, "critic", "out"⟩] : List DebateEntry).map
        DebateEntry.role
      = (List.replicate 1 (["researcher", "critic"] : List String)).flatten :=
  run_agent_debate_transcript_shape genAllOk "T" 1 ["researcher", "critic"]
    [⟨1, "researcher", "out"⟩, ⟨1, "critic", "out"⟩] "out" (by decide) (by decide)

/-- C3 counterexample: a one-round debate over the default roster in which
the first turn's invocation fails. Instead of recording the error message as
that entry's argument and continuing, reading `response["output"]` raises
`KeyError`, caught by the catch-all handler: the call returns the bare error
envelope, with no transcript and no further turns. -/
theorem run_agent_debate_error_turn_counterexample :
    run_single_agent genResearcherFails "researcher" (debateTask "T" 1 []) none none
      = .error "researcher" "bad turn"
    ∧ run_agent_debate genResearcherFails "T" 1 none = .err keyErrorOutput := by
  refine ⟨by decide, by decide⟩

/-- C3 amended: a debate turn whose underlying invocation fails is not
appended to the transcript; the missing `output` key aborts the whole call,
which returns the error envelope carrying the `KeyError` message, and no
further turns run. Stated for a failure at the very first turn. -/
theorem run_agent_debate_aborts_on_failed_turn
    (gen : Gen) (topic : String) (rounds : Nat) (role : String)
    (rest : List String) (r e : String)
    (hr : 1 ≤ rounds)
    (herr : run_single_agent gen role (debateTask topic 1 []) none none
      = .error r e) :
    run_agent_debate gen topic rounds (some (role :: rest)) = .err keyErrorOutput := by
  obtain ⟨n, rfl⟩ : ∃ n, rounds = n + 1 :=
    ⟨rounds - 1, by omega⟩
  rw [run_agent_debate]
  simp only [Option.getD]
  rw [debateBody, debateRoundsLoop, debateRosterLoop, herr]
  rfl

/-- Witness for C3 amended: the failing first turn of the counterexample
provider, over an explicit two-role roster. -/
theorem run_agent_debate_aborts_on_failed_turn_witness :
    run_agent_debate genResearcherFails "T" 1 (some ["researcher", "critic"])
      = .err keyErrorOutput :=
  run_agent_debate_aborts_on_failed_turn genResearcherFails "T" 1 "researcher"
    ["critic"] "researcher" "bad turn" (by decide) (by decide)

/-- C5 counterexample: retrieval succeeds (the index returns one document)
but generation fails; the returned envelope is the bare error shape, which
carries only the message — the already-retrieved sources are discarded, not
included, refuting the claim that they are still present. -/
theorem query_with_context_sources_dropped_counterexample :
    ragOracleGenFails.search "kb" "q" 3 = .ok ⟨["doc1"], ["m1"], [5], ["id1"]⟩
    ∧ query_with_context ragOracleGenFails "kb" "q" 3 none = .err "gen down" :=
  ⟨rfl, rfl⟩

/-- C5 amended: when retrieval succeeds and the subsequent generation call
fails, `query_with_context` returns the error envelope carrying the
generation error message only; the retrieved sources (documents, metadatas,
distances) are not part of the returned envelope. -/
theorem query_with_context_generation_failure
    {μ δ : Type} (o : RagOracle μ δ) (collection_name query : String)
    (n_context_docs : Nat) (system_prompt : Option String)
    (sr : SearchResults μ δ) (e : String)
    (hs : o.search collection_name query n_context_docs = .ok sr)
    (hg : generate_with_context o.gen query sr.documents system_prompt = .error e) :
    query_with_context o collection_name query n_context_docs system_prompt
      = .err e := by
  rw [query_with_context, hs]
  dsimp only
  rw [hg]

/-- Witness for C5 amended: the concrete failing-generation oracle. -/
theorem query_with_context_generation_failure_witness :
    query_with_context ragOracleGenFails "kb" "q" 3 none = .err "gen down" :=
  query_with_context_generation_failure ragOracleGenFails "kb" "q" 3 none
    ⟨["doc1"], ["m1"], [5], ["id1"]⟩ "gen down" rfl rfl

/-- C4 counterexample: a snapshot reporting `steps_completed = 5` with
`total_steps = 2` passes the pydantic validation of `LongRunningTaskResult`
(each field only has an independent bound), violating
`steps_completed ≤ total_steps` — so validation does not reject every payload
violating that relation. -/
theorem validateLongRunningTaskResult_no_steps_relation :
    validateLongRunningTaskResult overCountedSnapshot = true
    ∧ ¬ (overCountedSnapshot.steps_completed ≤ overCountedSnapshot.total_steps) := by
  refine ⟨by decide, by decide⟩

/-- C4 amended: every snapshot passing validation satisfies
`progress_percentage ∈ [0, 100]`, `steps_completed ≥ 0` and
`total_steps ≥ 1`, and any payload whose progress percentage violates its
bound is rejected; the relation `steps_completed ≤ total_steps` is not
checked by the schema. -/
theorem validateLongRunningTaskResult_bounds :
    (∀ p : LongRunningTaskResult, validateLongRunningTaskResult p = true →
      0 ≤ p.progress_percentage ∧ p.progress_percentage ≤ 100
        ∧ 0 ≤ p.steps_completed ∧ 1 ≤ p.total_steps)
    ∧ (∀ p : LongRunningTaskResult,
        (p.progress_percentage < 0 ∨ 100 < p.progress_percentage) →
        validateLongRunningTaskResult p = false) := by
  constructor
  · intro p h
    rw [validateLongRunningTaskResult] at h
    simp only [Bool.and_eq_true, decide_eq_true_eq] at h
    exact ⟨h.1.1.1, h.1.1.2, h.1.2, h.2⟩
  · intro p h
    rw [validateLongRunningTaskResult]
    rcases h with h | h
    · rw [decide_eq_false (not_le.mpr h)]
      simp
    · rw [decide_eq_false (not_le.mpr h)]
      simp

/-- Witness for C4 amended: a valid completed snapshot satisfies the bounds;
an over-100-percent snapshot is rejected. -/
theorem validateLongRunningTaskResult_bounds_witness :
    (0 ≤ goodSnapshot.progress_percentage ∧ goodSnapshot.progress_percentage ≤ 100
      ∧ 0 ≤ goodSnapshot.steps_completed ∧ 1 ≤ goodSnapshot.total_steps)
    ∧ validateLongRunningTaskResult badSnapshot = false :=
  ⟨validateLongRunningTaskResult_bounds.1 goodSnapshot (by decide),
   validateLongRunningTaskResult_bounds.2 badSnapshot (Or.inr (by decide))⟩

/-- C7: `run_single_agent` never raises past its boundary — it is a total
function of the provider's behaviour: a provider exception (any `.error`)
becomes the error shape carrying exactly that exception's message, and a
provider success becomes the success shape. -/
theorem run_single_agent_never_raises
    (gen : Gen) (role task_description : String)
    (context custom_system_prompt : Option String) :
    (∀ e, gen (genCallOf role task_description context custom_system_prompt)
        = .error e →
      run_single_agent gen role task_description context custom_system_prompt
        = .error role e)
    ∧ (∀ r, gen (genCallOf role task_description context custom_system_prompt)
        = .ok r →
      run_single_agent gen role task_description context custom_system_prompt
        = .success role r.text r.usage) := by
  constructor
  · intro e h
    rw [run_single_agent, h]
  · intro r h
    rw [run_single_agent, h]

/-- Witness for C7: a provider that raises and a provider that succeeds. -/
theorem run_single_agent_never_raises_witness :
    run_single_agent genBoom "researcher" "t" none none
      = .error "researcher" "boom"
    ∧ run_single_agent genAllOk "researcher" "t" none none
      = .success "researcher" "out" ⟨1, 1⟩ :=
  ⟨(run_single_agent_never_raises genBoom "researcher" "t" none none).1 "boom" rfl,
   (run_single_agent_never_raises genAllOk "researcher" "t" none none).2
     ⟨"out", ⟨1, 1⟩⟩ rfl⟩

/-- C8 counterexample: a provider returning an empty completion text yields
a success-shaped result whose `output` is the empty string — the invoker
performs no non-emptiness check, refuting "status=success always carries a
non-empty output". (Symmetrically, an exception with an empty message would
yield an empty `error`.) -/
theorem run_single_agent_empty_output_counterexample :
    run_single_agent genEmptyText "researcher" "t" none none
      = .success "researcher" "" ⟨1, 1⟩ := by
  decide

/-- C8 amended: a success result's `output` is exactly the provider's text,
passed through unchecked (possibly empty); an error result carries exactly
the exception's message (also unchecked) and has no `output` field
(`result.get("output")` is `None`). -/
theorem run_single_agent_result_fields
    (gen : Gen) (role task_description : String)
    (context custom_system_prompt : Option String) :
    (∀ r e, run_single_agent gen role task_description context custom_system_prompt
        = .error r e →
      (run_single_agent gen role task_description context custom_system_prompt).outputOpt
        = none
      ∧ gen (genCallOf role task_description context custom_system_prompt)
        = .error e)
    ∧ (∀ r o u, run_single_agent gen role task_description context custom_system_prompt
        = .success r o u →
      gen (genCallOf role task_description context custom_system_prompt)
        = .ok ⟨o, u⟩) := by
  constructor
  · intro r e h
    refine ⟨by rw [h]; rfl, ?_⟩
    rw [run_single_agent] at h
    cases hg : gen (genCallOf role task_description context custom_system_prompt) with
    | ok resp => rw [hg] at h; cases h
    | error e0 =>
        rw [hg] at h
        cases h
        rfl
  · intro r o u h
    rw [run_single_agent] at h
    cases hg : gen (genCallOf role task_description context custom_system_prompt) with
    | ok resp =>
        rw [hg] at h
        cases h
        rfl
    | error e0 => rw [hg] at h; cases h

/-- Witness for C8 amended: the raising provider has no `output` field and
passes its message through; the empty-text provider's text is passed through
verbatim. -/
theorem run_single_agent_result_fields_witness :
    ((run_single_agent genBoom "r" "t" none none).outputOpt = none
      ∧ genBoom (genCallOf "r" "t" none none) = .error "boom")
    ∧ genEmptyText (genCallOf "r" "t" none none) = .ok ⟨"", ⟨1, 1⟩⟩ :=
  ⟨(run_single_agent_result_fields genBoom "r" "t" none none).1 "r" "boom" rfl,
   (run_single_agent_result_fields genEmptyText "r" "t" none none).2
     "r" "" ⟨1, 1⟩ rfl⟩

/-- Every resolved role prompt is a non-empty string. -/
theorem rolePrompt_ne_empty (role : String) : rolePrompt role ≠ "" := by
  rw [rolePrompt]
  split_ifs <;> decide

/-- The resolved system prompt is never the empty string. -/
theorem systemPromptOf_ne_empty (role : String) (csp : Option String) :
    systemPromptOf role csp ≠ "" := by
  cases csp with
  | none => exact rolePrompt_ne_empty role
  | some s =>
      show (if s = "" then rolePrompt role else s) ≠ ""
      split_ifs with h
      · exact rolePrompt_ne_empty role
      · exact h

/-- Re-submitting the resolved system prompt as the custom prompt resolves
to itself. -/
theorem systemPromptOf_idem (role : String) (csp : Option String) :
    systemPromptOf role (some (systemPromptOf role csp))
      = systemPromptOf role csp := by
  show (if systemPromptOf role csp = "" then rolePrompt role
    else systemPromptOf role csp) = systemPromptOf role csp
  rw [if_neg (systemPromptOf_ne_empty role csp)]

/-- C10: a non-empty `custom_system_prompt` is used verbatim as the system
prompt regardless of role; the lowercased role lookup with generic fallback
is used exactly when the custom prompt is absent or empty; and the result of
`run_single_agent` depends on the custom prompt only through the resolved
system prompt — replacing the custom prompt by the resolved prompt leaves
the result unchanged. -/
theorem run_single_agent_custom_prompt_selection
    (gen : Gen) (role task_description : String) (context : Option String)
    (s : String) :
    (s ≠ "" → systemPromptOf role (some s) = s)
    ∧ systemPromptOf role none = rolePrompt role
    ∧ systemPromptOf role (some "") = rolePrompt role
    ∧ (∀ csp : Option String,
        run_single_agent gen role task_description context csp
          = run_single_agent gen role task_description context
              (some (systemPromptOf role csp))) := by
  refine ⟨fun h => ?_, rfl, rfl, fun csp => ?_⟩
  · show (if s = "" then rolePrompt role else s) = s
    rw [if_neg h]
  · rw [run_single_agent, run_single_agent, genCallOf, genCallOf,
      systemPromptOf_idem]

/-- Witness for C10: a concrete non-empty custom prompt on the researcher
role, and the invariance instantiated at it. -/
theorem run_single_agent_custom_prompt_selection_witness :
    systemPromptOf "researcher" (some "Be brief.") = "Be brief."
    ∧ systemPromptOf "researcher" none = rolePrompt "researcher"
    ∧ systemPromptOf "researcher" (some "") = rolePrompt "researcher"
    ∧ run_single_agent genAllOk "researcher" "t" none (some "Be brief.")
        = run_single_agent genAllOk "researcher" "t" none
            (some (systemPromptOf "researcher" (some "Be brief."))) :=
  ⟨(run_single_agent_custom_prompt_selection genAllOk "researcher" "t" none
      "Be brief.").1 (by decide),
   (run_single_agent_custom_prompt_selection genAllOk "researcher" "t" none
      "Be brief.").2.1,
   (run_single_agent_custom_prompt_selection genAllOk "researcher" "t" none
      "Be brief.").2.2.1,
   (run_single_agent_custom_prompt_selection genAllOk "researcher" "t" none
      "Be brief.").2.2.2 (some "Be brief.")⟩
